import Mathlib

/-!
Shallow embedding of `examples/with_sctk/src/main.rs` from the vello repository.

The program is glue code: it connects to a Wayland display, sets up a toplevel
window with a GPU swap-surface, and runs a blocking event-dispatch loop whose
configure handler draws one gray rectangle and presents it.

The embedding models:
* the scene data produced by the configure handler (kurbo/peniko values; the
  only coordinates appearing are exact small integers, so `f64` fields are
  modelled as `Int`),
* the application state (`AppState`) with toolkit sub-states as opaque tokens,
* the effectful parts (bootstrap in `run`, the dispatch loop, the `configure`
  and `request_close` handlers) as pure functions over an explicit environment
  of success/failure flags, returning a trace of effects together with either a
  normal result or a panic message.
-/

/-- peniko::Fill — the fill rule passed to `SceneBuilder::fill`. -/
inductive Fill where
  | nonZero
  | evenOdd
deriving DecidableEq

/-- peniko::Color, 8-bit RGBA components. -/
structure Color where
  r : Nat
  g : Nat
  b : Nat
  a : Nat
deriving DecidableEq

/-- `Color::rgb8` sets the alpha component to 255. -/
def Color.rgb8 (r g b : Nat) : Color := ⟨r, g, b, 255⟩

/-- peniko::Brush — only the `Solid` variant is used by this program. -/
inductive Brush where
  | solid (c : Color)
deriving DecidableEq

/-- kurbo::Affine, the six coefficients of a 2D affine map.  The program only
uses `Affine::IDENTITY`, whose coefficients are exact, so `Int` suffices. -/
structure Affine where
  c0 : Int
  c1 : Int
  c2 : Int
  c3 : Int
  c4 : Int
  c5 : Int
deriving DecidableEq

/-- `Affine::IDENTITY` = (1, 0, 0, 1, 0, 0). -/
def Affine.IDENTITY : Affine := ⟨1, 0, 0, 1, 0, 0⟩

/-- kurbo::Point. -/
structure Point where
  x : Int
  y : Int
deriving DecidableEq

/-- kurbo::Rect, by its two corners. -/
structure Rect where
  x0 : Int
  y0 : Int
  x1 : Int
  y1 : Int
deriving DecidableEq

/-- `Rect::from_origin_size`: the rectangle with top-left corner `p` and the
given width and height. -/
def Rect.from_origin_size (p : Point) (w h : Int) : Rect :=
  ⟨p.x, p.y, p.x + w, p.y + h⟩

/-- One recorded `fill` call on a scene builder: fill rule, transform, brush,
optional brush transform, and the shape (only `Rect` shapes occur here). -/
structure FillItem where
  style : Fill
  transform : Affine
  brush : Brush
  brushTransform : Option Affine
  shape : Rect
deriving DecidableEq

/-- vello::Scene, modelled as the list of drawing commands it encodes. -/
structure Scene where
  items : List FillItem
deriving DecidableEq

/-- `Scene::new()` — an empty scene. -/
def Scene.new : Scene := ⟨[]⟩

/-- vello::SceneBuilder, carrying the scene being encoded. -/
structure SceneBuilder where
  scene : Scene
deriving DecidableEq

/-- `SceneBuilder::for_scene` resets the scene's encoding and starts building
into it. -/
def SceneBuilder.for_scene (_s : Scene) : SceneBuilder := ⟨⟨[]⟩⟩

/-- `SceneBuilder::fill` appends one fill command. -/
def SceneBuilder.fill (b : SceneBuilder) (style : Fill) (transform : Affine)
    (brush : Brush) (brushTransform : Option Affine) (shape : Rect) : SceneBuilder :=
  ⟨⟨b.scene.items ++ [⟨style, transform, brush, brushTransform, shape⟩]⟩⟩

/-- `SceneBuilder::finish` completes the encoding; the built scene is the
builder's accumulated content. -/
def SceneBuilder.finish (b : SceneBuilder) : Scene := b.scene

/-- sctk `WindowConfigure`: the size suggested by the compositor (if any) and
the window states.  States carry no payload the program reads; tokens. -/
structure WindowConfigure where
  new_size : Option (Nat × Nat)
  states : List Nat
deriving DecidableEq

/-- wgpu `SurfaceConfiguration` — the fields the program reads. -/
structure SurfaceConfig where
  width : Nat
  height : Nat
deriving DecidableEq

/-- vello::util::RenderSurface: the swap-surface with its configuration and
the index of the device it was created on. -/
structure RenderSurface where
  config : SurfaceConfig
  dev_id : Nat
deriving DecidableEq

/-- `WindowHandle` from the example: the connection paired with the window.
Both are protocol objects with no structure the program inspects; tokens. -/
structure WindowHandle where
  conn : Nat
  window : Nat
deriving DecidableEq

/-- `AppState`, fields in declaration order.  Toolkit bookkeeping states are
opaque tokens: the program never inspects them, only stores them and returns
mutable references to them from accessor callbacks. -/
structure AppState where
  registry_state : Nat
  seat_state : Nat
  output_state : Nat
  compositor_state : Nat
  xdg_shell_state : Nat
  xdg_window_state : Nat
  surface : RenderSurface
  handle : WindowHandle
  render_cx : Nat
  renderer : Nat
deriving DecidableEq

/-- Scene construction from the body of `WindowHandler::configure`
(main.rs lines 183–193): a fresh scene receiving exactly one non-zero fill of
the rectangle from the origin of size 1000×1000 with solid `rgb8(128,128,128)`
under the identity transform.  The configure payload and serial are in scope
in the handler but unused by these lines, exactly as in the source. -/
def configureScene (_configure : WindowConfigure) (_serial : Nat) : Scene :=
  let scene := Scene.new
  let b := SceneBuilder.for_scene scene
  let rect := Rect.from_origin_size (Point.mk 0 0) 1000 1000
  let b := SceneBuilder.fill b Fill.nonZero Affine.IDENTITY
    (Brush.solid (Color.rgb8 128 128 128)) none rect
  SceneBuilder.finish b

/-- Observable effects performed by the configure handler, in order. -/
inductive Effect where
  | debugPrint (width height : Nat)
  | sceneBuilt (s : Scene)
  | acquireTexture
  | render (width height : Nat)
  | present
deriving DecidableEq

/-- Result of running a handler: a trace of effects together with either the
updated state or a panic message. -/
inductive Outcome (A : Type) where
  | ok (trace : List Effect) (val : A)
  | panicked (trace : List Effect) (msg : String)
deriving DecidableEq

/-- The effects a handler performed, whether or not it panicked. -/
def Outcome.trace : Outcome A → List Effect
  | .ok t _ => t
  | .panicked t _ => t

/-- Environment for one invocation of `configure`: whether
`get_current_texture` succeeds and whether the awaited render succeeds. -/
structure ConfigureEnv where
  acquire_ok : Bool
  render_ok : Bool
deriving DecidableEq

/-- `WindowHandler::configure` (main.rs lines 172–214): read the swap-surface's
configured width and height, print them (`dbg!`), build the one-rectangle
scene, acquire the surface's current texture (`expect` panics on failure),
render the scene to it synchronously via `block_on_wgpu` (`expect` panics on
failure), then present the texture.  The handler writes none of the state's
fields, so the `ok` outcome returns the state unchanged. -/
def configure (st : AppState) (cfg : WindowConfigure) (serial : Nat)
    (env : ConfigureEnv) : Outcome AppState :=
  let width := st.surface.config.width
  let height := st.surface.config.height
  let t := [Effect.debugPrint width height]
  let scene := configureScene cfg serial
  let t := t ++ [Effect.sceneBuilt scene]
  let t := t ++ [Effect.acquireTexture]
  if env.acquire_ok = false then .panicked t "failed to get surface texture" else
  let t := t ++ [Effect.render width height]
  if env.render_ok = false then .panicked t "failed to render to surface" else
  .ok (t ++ [Effect.present]) st

/-- The first dimensions handed to a render effect in a trace, if any:
the size at which the frame is submitted. -/
def renderedDims : List Effect → Option (Nat × Nat)
  | [] => none
  | Effect.render w h :: _ => some (w, h)
  | _ :: rest => renderedDims rest

/-- Result of `WindowHandler::request_close`. -/
inductive CloseResult where
  | ok (st : AppState)
  | panicked (msg : String)
deriving DecidableEq

/-- `WindowHandler::request_close` (main.rs lines 168–170): the body is
`todo!()`, which panics with the message "not yet implemented". -/
def request_close (st : AppState) (_conn : Unit) (_qh : Unit)
    (_window : Nat) : CloseResult :=
  let _ := st
  CloseResult.panicked "not yet implemented"

/-- sctk seat capability (payload of `new_capability`/`remove_capability`). -/
inductive Capability where
  | keyboard
  | pointer
  | touch
deriving DecidableEq

/-- `CompositorHandler::scale_factor_changed` — empty body. -/
def AppState.scale_factor_changed (st : AppState) (_conn : Unit) (_qh : Unit)
    (_surface : Nat) (_new_factor : Int) : AppState := st

/-- `CompositorHandler::frame` — empty body. -/
def AppState.frame (st : AppState) (_conn : Unit) (_qh : Unit)
    (_surface : Nat) (_time : Nat) : AppState := st

/-- `OutputHandler::output_state` — returns the output sub-state by mutable
reference; modelled as the field paired with the unchanged state. -/
def AppState.output_state_ref (st : AppState) : Nat × AppState :=
  (st.output_state, st)

/-- `OutputHandler::new_output` — empty body. -/
def AppState.new_output (st : AppState) (_conn : Unit) (_qh : Unit)
    (_output : Nat) : AppState := st

/-- `OutputHandler::update_output` — empty body. -/
def AppState.update_output (st : AppState) (_conn : Unit) (_qh : Unit)
    (_output : Nat) : AppState := st

/-- `OutputHandler::output_destroyed` — empty body. -/
def AppState.output_destroyed (st : AppState) (_conn : Unit) (_qh : Unit)
    (_output : Nat) : AppState := st

/-- `SeatHandler::seat_state` — returns the seat sub-state by mutable
reference; modelled as the field paired with the unchanged state. -/
def AppState.seat_state_ref (st : AppState) : Nat × AppState :=
  (st.seat_state, st)

/-- `SeatHandler::new_seat` — empty body. -/
def AppState.new_seat (st : AppState) (_conn : Unit) (_qh : Unit)
    (_seat : Nat) : AppState := st

/-- `SeatHandler::new_capability` — empty body. -/
def AppState.new_capability (st : AppState) (_conn : Unit) (_qh : Unit)
    (_seat : Nat) (_capability : Capability) : AppState := st

/-- `SeatHandler::remove_capability` — empty body. -/
def AppState.remove_capability (st : AppState) (_conn : Unit) (_qh : Unit)
    (_seat : Nat) (_capability : Capability) : AppState := st

/-- `SeatHandler::remove_seat` — empty body. -/
def AppState.remove_seat (st : AppState) (_conn : Unit) (_qh : Unit)
    (_seat : Nat) : AppState := st

/-- `ProvidesRegistryState::registry` — returns the registry sub-state by
mutable reference; modelled as the field paired with the unchanged state. -/
def AppState.registry_ref (st : AppState) : Nat × AppState :=
  (st.registry_state, st)

/-- Steps of the one-time bootstrap/setup sequence in `run`
(main.rs lines 73–109), in program order. -/
inductive SetupEffect where
  | connect
  | registryInit
  | bindCompositor
  | bindXdgShell
  | bindXdgWindow
  | createSurface
  | createWindow
  | newRenderContext
  | createSwapSurface (width height : Nat)
  | newRenderer
deriving DecidableEq

/-- Result of running the setup portion of `run`: the trace of steps and
either the assembled `AppState` or the panic that aborted the process. -/
inductive SetupResult where
  | ok (trace : List SetupEffect) (st : AppState)
  | panicked (trace : List SetupEffect) (msg : String)
deriving DecidableEq

/-- The steps setup performed, whether or not it panicked. -/
def SetupResult.trace : SetupResult → List SetupEffect
  | .ok t _ => t
  | .panicked t _ => t

/-- Environment for setup: which fallible external calls succeed. -/
structure SetupEnv where
  connect_ok : Bool
  registry_ok : Bool
  compositor_available : Bool
  xdg_shell_available : Bool
  window_ok : Bool
  render_cx_ok : Bool
  renderer_ok : Bool
deriving DecidableEq

/-- Panic message used for `Result::unwrap` on an error (the runtime message
also embeds the error value, which the model leaves abstract). -/
def unwrapErrMsg : String := "called Result::unwrap on an Err value"

/-- The `AppState` assembled at main.rs lines 98–109 when every setup step
succeeds: toolkit sub-states freshly constructed (tokens), and the
swap-surface created at the fixed initial size 256×256. -/
def initialAppState : AppState :=
  ⟨0, 0, 0, 0, 0, 0, ⟨⟨256, 256⟩, 0⟩, ⟨0, 0⟩, 0, 0⟩

/-- The setup portion of `run` (main.rs lines 73–109): connect to the display
(`unwrap`), initialise the registry queue (`unwrap`), bind the compositor
global (`expect "wl_compositor not available"`), bind the xdg shell global
(`expect "xdg shell not available"`), bind the xdg window state (infallible),
create the drawing surface, map the toplevel window (`expect "window
creation"`), create the render context (`unwrap`), create the swap-surface at
256×256, create the renderer (`unwrap`), then assemble `AppState`.  Every
failure panics immediately; there is no retry. -/
def runSetup (env : SetupEnv) : SetupResult :=
  let t := [SetupEffect.connect]
  if env.connect_ok = false then .panicked t unwrapErrMsg else
  let t := t ++ [SetupEffect.registryInit]
  if env.registry_ok = false then .panicked t unwrapErrMsg else
  let t := t ++ [SetupEffect.bindCompositor]
  if env.compositor_available = false then
    .panicked t "wl_compositor not available" else
  let t := t ++ [SetupEffect.bindXdgShell]
  if env.xdg_shell_available = false then
    .panicked t "xdg shell not available" else
  let t := t ++ [SetupEffect.bindXdgWindow, SetupEffect.createSurface,
    SetupEffect.createWindow]
  if env.window_ok = false then .panicked t "window creation" else
  let t := t ++ [SetupEffect.newRenderContext]
  if env.render_cx_ok = false then .panicked t unwrapErrMsg else
  let t := t ++ [SetupEffect.createSwapSurface 256 256, SetupEffect.newRenderer]
  if env.renderer_ok = false then .panicked t unwrapErrMsg else
  .ok t initialAppState

/-- The full setup trace on the all-successful path. -/
def fullSetupTrace : List SetupEffect :=
  [SetupEffect.connect, SetupEffect.registryInit, SetupEffect.bindCompositor,
   SetupEffect.bindXdgShell, SetupEffect.bindXdgWindow,
   SetupEffect.createSurface, SetupEffect.createWindow,
   SetupEffect.newRenderContext, SetupEffect.createSwapSurface 256 256,
   SetupEffect.newRenderer]

/-- Panic message when `event_queue.blocking_dispatch(&mut state).unwrap()`
hits a dispatch error. -/
def dispatchPanicMsg : String := unwrapErrMsg

/-- State of the dispatch loop after a bounded number of observation steps:
still looping after `attempts` dispatch calls, aborted by a panic after
`attempts` dispatch calls, or exited the loop normally (the source loop has
no such path; the constructor exists so its absence can be stated). -/
inductive LoopState where
  | running (attempts : Nat)
  | panicked (attempts : Nat) (msg : String)
  | returned (attempts : Nat)
deriving DecidableEq

/-- Whether the loop has exited normally. -/
def LoopState.isReturned : LoopState → Bool
  | .returned _ => true
  | _ => false

/-- The dispatch loop of `run` (main.rs lines 111–113), observed for `fuel`
steps: each iteration performs one blocking dispatch whose success is
`dispatchOk n` for the `n`-th call; on success the body ends and the loop
iterates again, on failure `unwrap` panics.  The body contains no break or
return. -/
def loopRun (dispatchOk : Nat → Bool) : Nat → LoopState
  | 0 => LoopState.running 0
  | fuel + 1 =>
    match loopRun dispatchOk fuel with
    | LoopState.running a =>
      if dispatchOk a then LoopState.running (a + 1)
      else LoopState.panicked (a + 1) dispatchPanicMsg
    | s => s

/-- C2: every scene constructed by the configure handler contains exactly one
filled rectangle, anchored at the origin, of size 1000×1000, with the fixed
solid color rgb8(128,128,128) (alpha 255), under the identity transform and
non-zero fill rule, regardless of the configure payload or serial. -/
theorem c2_scene_single_rect (cfg : WindowConfigure) (serial : Nat) :
    (configureScene cfg serial).items =
      [⟨Fill.nonZero, Affine.IDENTITY, Brush.solid ⟨128, 128, 128, 255⟩, none,
        ⟨0, 0, 1000, 1000⟩⟩] := rfl

/-- C3: scene construction in the configure handler is deterministic and
independent of its inputs — for any two configure events (any reported sizes,
states, or serials), the scenes built are identical. -/
theorem c3_scene_noninterference (cfg₁ : WindowConfigure) (s₁ : Nat)
    (cfg₂ : WindowConfigure) (s₂ : Nat) :
    configureScene cfg₁ s₁ = configureScene cfg₂ s₂ := rfl

/-- C5: a window-close request always aborts via the "not implemented" panic:
in every state `request_close` panics with "not yet implemented" and never
returns normally. -/
theorem c5_request_close_always_panics (st : AppState) (c q : Unit) (w : Nat) :
    request_close st c q w = CloseResult.panicked "not yet implemented" ∧
    ∀ st', request_close st c q w ≠ CloseResult.ok st' :=
  ⟨rfl, fun _ h => nomatch h⟩

/-- C8: the compositor, output, and seat handler callbacks perform no
application logic: each leaves the application state unchanged, and the
accessor callbacks return exactly their own toolkit sub-state alongside the
unchanged state. -/
theorem c8_stub_handlers_preserve_state :
    (∀ st c q s f, AppState.scale_factor_changed st c q s f = st) ∧
    (∀ st c q s t, AppState.frame st c q s t = st) ∧
    (∀ st : AppState, st.output_state_ref = (st.output_state, st)) ∧
    (∀ st c q o, AppState.new_output st c q o = st) ∧
    (∀ st c q o, AppState.update_output st c q o = st) ∧
    (∀ st c q o, AppState.output_destroyed st c q o = st) ∧
    (∀ st : AppState, st.seat_state_ref = (st.seat_state, st)) ∧
    (∀ st c q s, AppState.new_seat st c q s = st) ∧
    (∀ st c q s cap, AppState.new_capability st c q s cap = st) ∧
    (∀ st c q s cap, AppState.remove_capability st c q s cap = st) ∧
    (∀ st c q s, AppState.remove_seat st c q s = st) ∧
    (∀ st : AppState, st.registry_ref = (st.registry_state, st)) :=
  ⟨fun _ _ _ _ _ => rfl, fun _ _ _ _ _ => rfl, fun _ => rfl,
   fun _ _ _ _ => rfl, fun _ _ _ _ => rfl, fun _ _ _ _ => rfl,
   fun _ => rfl, fun _ _ _ _ => rfl, fun _ _ _ _ _ => rfl,
   fun _ _ _ _ _ => rfl, fun _ _ _ _ => rfl, fun _ => rfl⟩

/-- C6: on every configure event the handler builds the one-rectangle scene,
then acquires the swap-surface's current texture (panicking with "failed to
get surface texture" if that fails), then renders synchronously at the
surface's configured size (panicking with "failed to render to surface" if
that fails), then presents — in exactly that order. -/
theorem c6_configure_effect_order (st : AppState) (cfg : WindowConfigure)
    (serial : Nat) :
    (∀ r, configure st cfg serial ⟨false, r⟩ =
      Outcome.panicked
        [Effect.debugPrint st.surface.config.width st.surface.config.height,
         Effect.sceneBuilt (configureScene cfg serial), Effect.acquireTexture]
        "failed to get surface texture") ∧
    configure st cfg serial ⟨true, false⟩ =
      Outcome.panicked
        [Effect.debugPrint st.surface.config.width st.surface.config.height,
         Effect.sceneBuilt (configureScene cfg serial), Effect.acquireTexture,
         Effect.render st.surface.config.width st.surface.config.height]
        "failed to render to surface" ∧
    configure st cfg serial ⟨true, true⟩ =
      Outcome.ok
        [Effect.debugPrint st.surface.config.width st.surface.config.height,
         Effect.sceneBuilt (configureScene cfg serial), Effect.acquireTexture,
         Effect.render st.surface.config.width st.surface.config.height,
         Effect.present] st :=
  ⟨fun _ => rfl, rfl, rfl⟩

/-- C1 (as stated) is false on the code: the configure handler never resizes
the swap-surface, so a frame submitted from the setup-produced state (surface
256×256) after a configure event reporting 512×512 uses 256×256, not the
event's size. -/
theorem c1_counterexample :
    ¬ (∀ (st : AppState) (cfg : WindowConfigure) (serial : Nat)
        (env : ConfigureEnv) (s : Nat × Nat),
        cfg.new_size = some s →
        renderedDims (Outcome.trace (configure st cfg serial env)) = some s) :=
  fun hclaim =>
    absurd (hclaim initialAppState ⟨some (512, 512), []⟩ 1 ⟨true, true⟩
      (512, 512) rfl) (by decide)

/-- C1 (amended): whenever the texture is acquired, the frame is submitted at
the swap-surface's configured dimensions — which the handler never updates —
and the setup-produced state fixes those at the initial 256×256, regardless of
the size any configure event reports. -/
theorem c1_amended_dims_fixed (st : AppState) (cfg : WindowConfigure)
    (serial : Nat) (r : Bool) :
    renderedDims (Outcome.trace (configure st cfg serial ⟨true, r⟩)) =
      some (st.surface.config.width, st.surface.config.height) ∧
    initialAppState.surface.config = ⟨256, 256⟩ := by
  cases r <;> exact ⟨rfl, rfl⟩

/-- C4: the dispatch loop never exits normally — after any number of observed
steps it is either still looping or has panicked; the `returned` state is
unreachable for every dispatch-success pattern. -/
theorem c4_loop_never_returns (d : Nat → Bool) (fuel : Nat) :
    (loopRun d fuel).isReturned = false := by
  induction fuel with
  | zero => rfl
  | succ n ih =>
    simp only [loopRun]
    cases hn : loopRun d n with
    | running a =>
      by_cases hd : d a <;> simp [hd, LoopState.isReturned]
    | panicked a m => simp [LoopState.isReturned]
    | returned a => rw [hn] at ih; simp [LoopState.isReturned] at ih

/-- If every dispatch before step `k` succeeds, the loop is still running,
having made exactly as many dispatch calls as steps observed, up to `k`. -/
lemma loopRun_running_of_ok (d : Nat → Bool) (k : Nat)
    (h : ∀ j, j < k → d j = true) :
    ∀ m, m ≤ k → loopRun d m = LoopState.running m := by
  intro m
  induction m with
  | zero => intro _; rfl
  | succ n ih =>
    intro hm
    have hn : loopRun d n = LoopState.running n := ih (Nat.le_of_succ_le hm)
    have hd : d n = true := h n (Nat.lt_of_lt_of_le (Nat.lt_succ_self n) hm)
    simp [loopRun, hn, hd]

/-- Once the loop has panicked, every longer observation sees the same panic
with the same dispatch count: no further iteration happens. -/
lemma loopRun_panicked_persist (d : Nat → Bool) (m a : Nat) (msg : String)
    (h : loopRun d m = LoopState.panicked a msg) :
    ∀ n, m ≤ n → loopRun d n = LoopState.panicked a msg := by
  intro n
  induction n with
  | zero =>
    intro hn
    have hm : m = 0 := Nat.le_zero.mp hn
    rw [hm] at h
    exact h
  | succ p ih =>
    intro hn
    rcases Nat.eq_or_lt_of_le hn with heq | hlt
    · rw [← heq]; exact h
    · have hp : loopRun d p = LoopState.panicked a msg :=
        ih (Nat.lt_succ_iff.mp hlt)
      simp [loopRun, hp]

/-- C10: if the `k`-th blocking dispatch is the first to return an error, the
loop panics at that call — exactly `k+1` dispatch calls, with the unwrap panic
message — and never proceeds to another iteration, however long it is
observed. -/
theorem c10_dispatch_error_aborts (d : Nat → Bool) (k fuel : Nat)
    (hk : d k = false) (hpre : ∀ j, j < k → d j = true) (hfuel : k < fuel) :
    loopRun d fuel = LoopState.panicked (k + 1) dispatchPanicMsg := by
  have hrun : loopRun d k = LoopState.running k :=
    loopRun_running_of_ok d k hpre k (Nat.le_refl k)
  have hstep : loopRun d (k + 1) = LoopState.panicked (k + 1) dispatchPanicMsg := by
    simp [loopRun, hrun, hk]
  exact loopRun_panicked_persist d (k + 1) (k + 1) dispatchPanicMsg hstep fuel hfuel

/-- Witness for C10 at the concrete pattern where the first two dispatches
succeed and the third fails: after 5 observed steps the loop has panicked
after exactly 3 dispatch calls. -/
theorem c10_dispatch_error_aborts_witness :
    loopRun (fun n => decide (n < 2)) 5 = LoopState.panicked 3 dispatchPanicMsg :=
  c10_dispatch_error_aborts (fun n => decide (n < 2)) 2 5 (by decide)
    (fun j hj => decide_eq_true hj) (by decide)

/-- Any failure among the first four bootstrap steps panics with the trace of
steps attempted so far, which contains no repetition. -/
lemma runSetup_panics_of_early_failure (c r co x w rc re : Bool)
    (h : c = false ∨ r = false ∨ co = false ∨ x = false) :
    ∃ t msg, runSetup ⟨c, r, co, x, w, rc, re⟩ = SetupResult.panicked t msg ∧
      t.Nodup := by
  cases c <;> cases r <;> cases co <;> cases x <;>
    first
      | exact ⟨_, _, rfl, by decide⟩
      | simp at h

/-- C7: bootstrap aborts with a diagnostic whenever the display connection (or
registry init) fails or a required global (compositor, xdg shell) is absent;
the attempted-step trace has no repetitions (no retry), and the result is a
panic, never a non-fatal continuation. -/
theorem c7_bootstrap_failures_fatal (env : SetupEnv)
    (h : env.connect_ok = false ∨ env.registry_ok = false ∨
      env.compositor_available = false ∨ env.xdg_shell_available = false) :
    ∃ t msg, runSetup env = SetupResult.panicked t msg ∧ t.Nodup := by
  rcases env with ⟨c, r, co, x, w, rc, re⟩
  exact runSetup_panics_of_early_failure c r co x w rc re h

/-- Witness for C7: with the compositor global absent and everything else
fine, bootstrap panics. -/
theorem c7_bootstrap_failures_fatal_witness :
    ∃ t msg, runSetup ⟨true, true, false, true, true, true, true⟩ =
      SetupResult.panicked t msg ∧ t.Nodup :=
  c7_bootstrap_failures_fatal ⟨true, true, false, true, true, true, true⟩
    (Or.inr (Or.inr (Or.inl rfl)))

/-- C9: whenever setup completes, its steps were exactly the one-time
sequence connect, registry, bind compositor, bind xdg shell, bind xdg window
state, create drawing surface, create toplevel window, create GPU render
context, create the swap-surface at the fixed initial 256×256, create the
renderer — each once, in that order — and the resulting state carries the
256×256 swap-surface. -/
theorem c9_setup_order (env : SetupEnv) (t : List SetupEffect) (st : AppState)
    (h : runSetup env = SetupResult.ok t st) :
    t = fullSetupTrace ∧ st = initialAppState := by
  unfold runSetup at h
  split at h
  · exact SetupResult.noConfusion h
  split at h
  · exact SetupResult.noConfusion h
  split at h
  · exact SetupResult.noConfusion h
  split at h
  · exact SetupResult.noConfusion h
  split at h
  · exact SetupResult.noConfusion h
  split at h
  · exact SetupResult.noConfusion h
  split at h
  · exact SetupResult.noConfusion h
  cases h
  exact ⟨rfl, rfl⟩

/-- Witness for C9: the all-successful environment completes setup with
exactly the full ordered trace and the initial state. -/
theorem c9_setup_order_witness :
    runSetup ⟨true, true, true, true, true, true, true⟩ =
      SetupResult.ok fullSetupTrace initialAppState ∧
    fullSetupTrace = fullSetupTrace ∧ initialAppState = initialAppState :=
  ⟨rfl, c9_setup_order ⟨true, true, true, true, true, true, true⟩
    fullSetupTrace initialAppState rfl⟩
